import Mathlib

/-!
Shallow embedding of the omni-bridge DCR relay module
(src/near/omni-bridge/src/dcr.rs and src/near/omni-types/src/dcr.rs),
together with theorems checking the module's specification.

Serde JSON text is modelled by a JSON syntax-tree type `Json`: a Rust
string value is represented by its JSON parse tree, and `serde_json::from_str`
by a total Lean function on trees.  Textual lexing is abstracted away; a
string that fails to parse as the expected Rust type is represented by any
tree outside the decoder's accepted set.  near_sdk's `json_types::U128`/`U64`
wire form (a JSON string holding the decimal numeral of the integer) is
modelled by the dedicated leaf `Json.numStr`, since decimal printing is a
bijection onto canonical numerals.
-/

namespace OmniBridgeDcr

/-- JSON value trees, the wire form of all serde-encoded data in the module.
`numStr n` is a JSON string whose content is the decimal numeral of `n`
(the wire form of `json_types::U128` and `json_types::U64`). -/
inductive Json where
  | null : Json
  | bool (b : Bool) : Json
  | num (n : Nat) : Json
  | numStr (n : Nat) : Json
  | str (s : String) : Json
  | arr (elems : List Json) : Json
  | obj (fields : List (String × Json)) : Json

/-- Look up the first field with the given name in a JSON object's field
list, as serde does when matching struct fields (order-insensitive, first
occurrence wins). -/
def jfield (fields : List (String × Json)) (k : String) : Option Json :=
  match fields with
  | [] => none
  | (k', v) :: rest => if k' = k then some v else jfield rest k

/-- Decode a `json_types::U128`: a JSON string holding a decimal numeral
that fits in 128 bits. -/
def parseU128 : Json → Option Nat
  | Json.numStr n => if n < 2 ^ 128 then some n else none
  | _ => none

/-- Decode a `json_types::U64`: a JSON string holding a decimal numeral
that fits in 64 bits. -/
def parseU64 : Json → Option Nat
  | Json.numStr n => if n < 2 ^ 64 then some n else none
  | _ => none

/-- Decode a plain JSON number that fits below the given bound
(serde rejects out-of-range numbers for fixed-width integer fields). -/
def parseBoundedNum (bound : Nat) : Json → Option Nat
  | Json.num n => if n < bound then some n else none
  | _ => none

/-- Decode a JSON string into a Rust `String`. -/
def parseString : Json → Option String
  | Json.str s => some s
  | _ => none

/-- Decred output format: struct `DcrTxOut` of src/near/omni-types/src/dcr.rs
(amount in atoms, script version, script hex). -/
structure DcrTxOut where
  value : Nat
  version : Nat
  pk_script : String
deriving DecidableEq, Repr

/-- Fields of `DcrTxOut` are a `u64` and a `u16`; a value is well formed
when both are in range. -/
def DcrTxOut.wfb (o : DcrTxOut) : Bool :=
  decide (o.value < 2 ^ 64) && decide (o.version < 2 ^ 16)

/-- JSON encoding of `DcrTxOut` (derived serde `Serialize`). -/
def DcrTxOut.toJson (o : DcrTxOut) : Json :=
  Json.obj [("value", Json.num o.value), ("version", Json.num o.version),
    ("pk_script", Json.str o.pk_script)]

/-- JSON decoding of `DcrTxOut` (derived serde `Deserialize`): fields are
looked up by name. -/
def DcrTxOut.fromJson (j : Json) : Option DcrTxOut :=
  match j with
  | Json.obj fields =>
    match jfield fields "value" with
    | none => none
    | some jv =>
      match parseBoundedNum (2 ^ 64) jv with
      | none => none
      | some v =>
        match jfield fields "version" with
        | none => none
        | some jver =>
          match parseBoundedNum (2 ^ 16) jver with
          | none => none
          | some ver =>
            match jfield fields "pk_script" with
            | none => none
            | some js =>
              match parseString js with
              | none => none
              | some s => some ⟨v, ver, s⟩
  | _ => none

/-- Message sent from NEAR to the DCR connector: enum `DcrTokenReceiverMessage`
of src/near/omni-types/src/dcr.rs.  `Withdraw` carries the target DCR
address, the UTXOs being spent (`input`, each a `txid:vout` string), the
outputs of the DCR transaction, and an optional maximum fee rate in atoms
per kB (`Option<U128>`). -/
inductive DcrTokenReceiverMessage where
  | DepositProtocolFee : DcrTokenReceiverMessage
  | Withdraw (target_dcr_address : String) (input : List String)
      (output : List DcrTxOut) (max_fee_rate : Option Nat) : DcrTokenReceiverMessage
deriving DecidableEq, Repr

/-- Well-formedness of a `DcrTokenReceiverMessage`: every numeric field fits
its Rust fixed-width type. -/
def DcrTokenReceiverMessage.wfb : DcrTokenReceiverMessage → Bool
  | DcrTokenReceiverMessage.DepositProtocolFee => true
  | DcrTokenReceiverMessage.Withdraw _ _ output max_fee_rate =>
    output.all DcrTxOut.wfb &&
      (match max_fee_rate with
       | none => true
       | some r => decide (r < 2 ^ 128))

/-- JSON encoding of `DcrTokenReceiverMessage` (serde externally-tagged enum:
a unit variant is a bare string, a struct variant a single-key object). -/
def DcrTokenReceiverMessage.toJson : DcrTokenReceiverMessage → Json
  | DcrTokenReceiverMessage.DepositProtocolFee => Json.str "DepositProtocolFee"
  | DcrTokenReceiverMessage.Withdraw a input output max_fee_rate =>
    Json.obj [("Withdraw", Json.obj
      [("target_dcr_address", Json.str a),
       ("input", Json.arr (input.map Json.str)),
       ("output", Json.arr (output.map DcrTxOut.toJson)),
       ("max_fee_rate", match max_fee_rate with
        | none => Json.null
        | some r => Json.numStr r)])]

/-- Decode a JSON array of strings (the `input` field). -/
def parseStringList : List Json → Option (List String)
  | [] => some []
  | j :: rest =>
    match parseString j with
    | none => none
    | some s =>
      match parseStringList rest with
      | none => none
      | some l => some (s :: l)

/-- Decode a JSON array of `DcrTxOut` values (the `output` field). -/
def parseTxOutList : List Json → Option (List DcrTxOut)
  | [] => some []
  | j :: rest =>
    match DcrTxOut.fromJson j with
    | none => none
    | some o =>
      match parseTxOutList rest with
      | none => none
      | some l => some (o :: l)

/-- Decode an `Option<U128>` struct field: a missing field or JSON `null`
is `None` (serde treats `Option` fields as implicitly optional), otherwise
the field decodes as a `U128`. -/
def parseOptU128Field (fields : List (String × Json)) (k : String) : Option (Option Nat) :=
  match jfield fields k with
  | none => some none
  | some Json.null => some none
  | some j =>
    match parseU128 j with
    | none => none
    | some r => some (some r)

/-- JSON decoding of the `Withdraw` variant's payload object. -/
def parseWithdrawPayload (j : Json) : Option DcrTokenReceiverMessage :=
  match j with
  | Json.obj fields =>
    match jfield fields "target_dcr_address" with
    | none => none
    | some jt =>
      match parseString jt with
      | none => none
      | some a =>
        match jfield fields "input" with
        | none => none
        | some ji =>
          match ji with
          | Json.arr li =>
            match parseStringList li with
            | none => none
            | some input =>
              match jfield fields "output" with
              | none => none
              | some jo =>
                match jo with
                | Json.arr lo =>
                  match parseTxOutList lo with
                  | none => none
                  | some output =>
                    match parseOptU128Field fields "max_fee_rate" with
                    | none => none
                    | some mfr =>
                      some (DcrTokenReceiverMessage.Withdraw a input output mfr)
                | _ => none
          | _ => none
  | _ => none

/-- JSON decoding of `DcrTokenReceiverMessage` (derived serde `Deserialize`
for an externally-tagged enum). -/
def DcrTokenReceiverMessage.fromJson (j : Json) : Option DcrTokenReceiverMessage :=
  match j with
  | Json.str s =>
    if s = "DepositProtocolFee" then some DcrTokenReceiverMessage.DepositProtocolFee
    else none
  | Json.obj fields =>
    match fields with
    | [(tag, payload)] =>
      if tag = "Withdraw" then parseWithdrawPayload payload else none
    | _ => none
  | _ => none

/-- Extra metadata embedded inside `TransferMessage.msg` for UTXO chains,
specific to DCR: enum `DcrUtxoChainMsg` of src/near/omni-bridge/src/dcr.rs,
carrying the maximum fee rate (atoms per kB) as a `U64`. -/
inductive DcrUtxoChainMsg where
  | MaxFeeRate (rate : Nat) : DcrUtxoChainMsg
deriving DecidableEq, Repr

/-- JSON encoding of `DcrUtxoChainMsg` (serde externally-tagged newtype
variant over a `U64`): the wire form of `MaxFeeRate(12345)` is the object
with single field "MaxFeeRate" holding the decimal string "12345". -/
def DcrUtxoChainMsg.toJson : DcrUtxoChainMsg → Json
  | DcrUtxoChainMsg.MaxFeeRate r => Json.obj [("MaxFeeRate", Json.numStr r)]

/-- Well-formedness of a `DcrUtxoChainMsg`: the embedded maximum fee rate
fits its Rust type `U64`. -/
def DcrUtxoChainMsg.wfb : DcrUtxoChainMsg → Bool
  | DcrUtxoChainMsg.MaxFeeRate r => decide (r < 2 ^ 64)

/-- JSON decoding of `DcrUtxoChainMsg`. -/
def DcrUtxoChainMsg.fromJson (j : Json) : Option DcrUtxoChainMsg :=
  match j with
  | Json.obj [(tag, payload)] =>
    if tag = "MaxFeeRate" then
      match parseU64 payload with
      | none => none
      | some r => some (DcrUtxoChainMsg.MaxFeeRate r)
    else none
  | _ => none

/-- Modelled from the spec: a NEAR account identifier (the host ledger's
account type); only compared for equality and carried along. -/
def AccountId : Type := String

instance : DecidableEq AccountId := fun a b => String.decEq a b

/-- Modelled from the spec: the chain kind, a tag identifying which external
ledger a transfer targets.  The variants cover the host ledger, an
account-based chain, and the two UTXO chains the bridge knows about; this
code path serves exactly `Dcr`. -/
inductive ChainKind where
  | Near : ChainKind
  | Eth : ChainKind
  | Btc : ChainKind
  | Dcr : ChainKind
deriving DecidableEq, Repr

/-- Modelled from the spec: a chain-tagged address (`OmniAddress` of
omni-types, not under src/).  Each variant carries the chain-specific
address text; `btc` and `dcr` are the UTXO-family variants. -/
inductive OmniAddress where
  | near (addr : String) : OmniAddress
  | eth (addr : String) : OmniAddress
  | btc (addr : String) : OmniAddress
  | dcr (addr : String) : OmniAddress
deriving DecidableEq, Repr

/-- Modelled from the spec: resolve a chain-tagged address to a UTXO-family
address when it has one ("Require the stored record's recipient to resolve
to a chain-specific address of the expected family"). -/
def OmniAddress.get_utxo_address : OmniAddress → Option String
  | OmniAddress.btc a => some a
  | OmniAddress.dcr a => some a
  | _ => none

/-- Modelled from the spec: the chain tag of a chain-tagged address. -/
def OmniAddress.get_chain : OmniAddress → ChainKind
  | OmniAddress.near _ => ChainKind.Near
  | OmniAddress.eth _ => ChainKind.Eth
  | OmniAddress.btc _ => ChainKind.Btc
  | OmniAddress.dcr _ => ChainKind.Dcr

/-- Modelled from the spec: opaque, globally unique identifier of a pending
cross-chain transfer. -/
structure TransferId where
  id : Nat
deriving DecidableEq, Repr

/-- Modelled from the spec: the fee structure of a transfer — the protocol
fee amount (`fee`, a `u128` modelled as `Nat`) plus a recipient-policy
component; compared by value for equality against any caller-asserted fee. -/
structure Fee where
  fee : Nat
  recipient_policy : String
deriving DecidableEq, Repr

/-- Modelled from the spec: the authoritative record of a transfer — amount,
fee structure, source token identity, chain-tagged recipient address, owner
is kept in the storage wrapper, and an opaque free-form metadata string
`msg`.  The metadata string is modelled by its JSON parse tree: `none` is
the empty string, `some j` a non-empty string with parse tree `j`.  The
record's identifier is derivable from the message in the source repository
(origin nonce and chain); it is modelled as the stored field `transfer_id`. -/
structure TransferMessage where
  transfer_id : TransferId
  amount : Nat
  fee : Fee
  token : OmniAddress
  recipient : OmniAddress
  msg : Option Json

/-- Modelled from the spec: the destination chain kind of a transfer is the
chain tag of its recipient address. -/
def TransferMessage.get_destination_chain (t : TransferMessage) : ChainKind :=
  t.recipient.get_chain

/-- Modelled from the spec: the registry's stored value for a transfer — the
record together with its owner account. -/
structure TransferMessageStorage where
  message : TransferMessage
  owner : AccountId

/-- Association-list lookup, the model of the registry's keyed access. -/
def assocFind {α β : Type} [DecidableEq α] (l : List (α × β)) (k : α) : Option β :=
  match l with
  | [] => none
  | (k', v) :: rest => if k' = k then some v else assocFind rest k

/-- Modelled from the spec: the contract state visible to this module — the
registry of pending transfers keyed by `TransferId`, and the external
lookup tables this path reads: the token registry (`get_token_id`), the
canonical wrapped token per UTXO chain (`get_utxo_chain_token`), and the
connector account per UTXO chain (`get_utxo_chain_connector`). -/
structure Contract where
  transfers : List (TransferId × TransferMessageStorage)
  token_ids : List (OmniAddress × AccountId)
  utxo_chain_tokens : List (ChainKind × AccountId)
  utxo_chain_connectors : List (ChainKind × AccountId)

/-- Modelled from the spec: read a pending transfer's storage entry; the
registry panics when the id is absent. -/
def Contract.get_transfer_message_storage (c : Contract) (tid : TransferId) :
    Except String TransferMessageStorage :=
  match assocFind c.transfers tid with
  | none => Except.error "The transfer does not exist"
  | some st => Except.ok st

/-- Modelled from the spec: remove a pending transfer from the registry. -/
def Contract.remove_transfer_message (c : Contract) (tid : TransferId) : Contract :=
  { c with transfers := c.transfers.filter (fun p => p.1 ≠ tid) }

/-- Modelled from the spec: reinsert a transfer record into the registry
under its owner, keyed by the identifier derived from the message. -/
def Contract.insert_raw_transfer (c : Contract) (tm : TransferMessage)
    (owner : AccountId) : Contract :=
  { c with transfers := (tm.transfer_id, ⟨tm, owner⟩) :: c.transfers }

/-- Modelled from the spec: the token-registry lookup resolving a transfer's
token identity to the local NEP-141 account id; panics when unknown. -/
def Contract.get_token_id (c : Contract) (token : OmniAddress) :
    Except String AccountId :=
  match assocFind c.token_ids token with
  | none => Except.error "Token is not registered"
  | some a => Except.ok a

/-- Modelled from the spec: the canonical wrapped-token account registered
for a UTXO chain kind; panics when unset. -/
def Contract.get_utxo_chain_token (c : Contract) (k : ChainKind) :
    Except String AccountId :=
  match assocFind c.utxo_chain_tokens k with
  | none => Except.error "UTXO chain token is not set"
  | some a => Except.ok a

/-- Modelled from the spec: the connector account registered for a UTXO
chain kind; panics when unset. -/
def Contract.get_utxo_chain_connector (c : Contract) (k : ChainKind) :
    Except String AccountId :=
  match assocFind c.utxo_chain_connectors k with
  | none => Except.error "UTXO chain connector is not set"
  | some a => Except.ok a

/-- Checked `u128` subtraction: NEAR contracts are built with overflow
checks on, so `a - b` panics when `b > a` (Rust's message is "attempt to
subtract with overflow"). -/
def checkedSub (a b : Nat) : Except String Nat :=
  if b ≤ a then Except.ok (a - b) else Except.error "attempt to subtract with overflow"

/-- Cross-check of the embedded fee-rate metadata, lines 62-78 of
src/near/omni-bridge/src/dcr.rs: when `TransferMessage.msg` is non-empty it
must parse as `DcrUtxoChainMsg` (panic "Invalid Transfer MSG for DCR UTXO
chain" otherwise), the instruction's `max_fee_rate` must be present (panic
"max_fee_rate is missing") and equal to the embedded value (panic "Invalid
max fee rate"); when `TransferMessage.msg` is empty no check is performed. -/
def checkEmbeddedFeeRate (storedMsg : Option Json) (max_fee_rate : Option Nat) :
    Except String Unit :=
  match storedMsg with
  | none => Except.ok ()
  | some raw =>
    match DcrUtxoChainMsg.fromJson raw with
    | none => Except.error "Invalid Transfer MSG for DCR UTXO chain"
    | some (DcrUtxoChainMsg.MaxFeeRate rate_from_msg) =>
      match max_fee_rate with
      | none => Except.error "max_fee_rate is missing"
      | some r =>
        if r = rate_from_msg then Except.ok ()
        else Except.error "Invalid max fee rate"

/-- Validation of an explicitly asserted fee, lines 86-89 of
src/near/omni-bridge/src/dcr.rs: when the caller supplies `Some(fee)` it
must equal the record's stored fee (panic "Invalid fee"); when the caller
supplies `None` no check is performed. -/
def checkFee (asserted : Option Fee) (stored : Fee) : Except String Unit :=
  match asserted with
  | none => Except.ok ()
  | some f => if stored = f then Except.ok () else Except.error "Invalid fee"

/-- Arguments closed over by the continuation registered at lines 116-124 of
src/near/omni-bridge/src/dcr.rs: the removed record, its owner, and the
resolved fee recipient. -/
structure CallbackArgs where
  transfer_msg : TransferMessage
  transfer_owner : AccountId
  fee_recipient : AccountId

/-- The outbound `ft_transfer_call` dispatched at lines 112-124 of
src/near/omni-bridge/src/dcr.rs: the wrapped-token contract called, the
one-yocto attached deposit, the connector receiving the funds, the net
amount, the memo (always `None`), the original raw instruction forwarded
verbatim as the message, and the registered continuation's arguments. -/
structure Dispatch where
  token_id : AccountId
  attached_deposit : Nat
  receiver_id : AccountId
  amount : Nat
  memo : Option String
  payload : Json
  callback : CallbackArgs

/-- Body of `submit_transfer_to_dcr_connector`, lines 31-125 of
src/near/omni-bridge/src/dcr.rs, in the source's order: read the record,
parse the incoming message (panic "INVALID DCR MSG"), compute the net
amount `amount - fee.fee`, require a UTXO recipient (panic "Invalid
destination chain for DCR"), require the `Withdraw` variant (panic "Invalid
DCR message type"), require the record's address to equal the instruction's
target (panic "Incorrect target address"), cross-check embedded fee-rate
metadata, validate an asserted fee, require the destination chain to be
`Dcr`, require the record's token to resolve to the chain's wrapped token,
remove the record, resolve the fee recipient (defaulting to the
predecessor), and dispatch `ft_transfer_call` with the continuation.
An `Except.error` is a panic: on NEAR the whole receipt reverts, so the
caller-visible state is the pre-call state. -/
def submitRun (c : Contract) (transfer_id : TransferId) (msg : Json)
    (fee_recipient : Option AccountId) (fee : Option Fee)
    (predecessor_account_id : AccountId) : Except String (Dispatch × Contract) :=
  match c.get_transfer_message_storage transfer_id with
  | Except.error e => Except.error e
  | Except.ok transfer =>
    match DcrTokenReceiverMessage.fromJson msg with
    | none => Except.error "INVALID DCR MSG"
    | some message =>
      match checkedSub transfer.message.amount transfer.message.fee.fee with
      | Except.error e => Except.error e
      | Except.ok amount =>
        match transfer.message.recipient.get_utxo_address with
        | none => Except.error "Invalid destination chain for DCR"
        | some dcr_address =>
          match message with
          | DcrTokenReceiverMessage.DepositProtocolFee =>
            Except.error "Invalid DCR message type"
          | DcrTokenReceiverMessage.Withdraw target_dcr_address _input _output max_fee_rate =>
            if dcr_address = target_dcr_address then
              match checkEmbeddedFeeRate transfer.message.msg max_fee_rate with
              | Except.error e => Except.error e
              | Except.ok _ =>
                match checkFee fee transfer.message.fee with
                | Except.error e => Except.error e
                | Except.ok _ =>
                  let chain_kind := transfer.message.get_destination_chain
                  if chain_kind = ChainKind.Dcr then
                    match c.get_utxo_chain_token chain_kind with
                    | Except.error e => Except.error e
                    | Except.ok dcr_token_id =>
                      match c.get_token_id transfer.message.token with
                      | Except.error e => Except.error e
                      | Except.ok token_id =>
                        if token_id = dcr_token_id then
                          let c1 := c.remove_transfer_message transfer_id
                          let fee_recipient := fee_recipient.getD predecessor_account_id
                          match c1.get_utxo_chain_connector chain_kind with
                          | Except.error e => Except.error e
                          | Except.ok connector =>
                            Except.ok
                              ({ token_id := dcr_token_id
                                 attached_deposit := 1
                                 receiver_id := connector
                                 amount := amount
                                 memo := none
                                 payload := msg
                                 callback :=
                                   { transfer_msg := transfer.message
                                     transfer_owner := transfer.owner
                                     fee_recipient := fee_recipient } }, c1)
                        else
                          Except.error "Only the native token of this UTXO chain can be transferred."
                  else
                    Except.error "submit_transfer_to_dcr_connector can only be used for Decred"
            else Except.error "Incorrect target address"

/-- Observable outcome of `submit_transfer_to_dcr_connector`: either a panic
with the panic message, or the dispatched settlement call. -/
inductive SubmitResult where
  | aborted (err : String) : SubmitResult
  | dispatched (d : Dispatch) : SubmitResult

/-- Entry point `submit_transfer_to_dcr_connector` with NEAR's receipt
semantics applied: a panic anywhere in the body reverts every state change,
so the returned contract state is the input state on any abort. -/
def submit_transfer_to_dcr_connector (c : Contract) (transfer_id : TransferId)
    (msg : Json) (fee_recipient : Option AccountId) (fee : Option Fee)
    (predecessor_account_id : AccountId) : SubmitResult × Contract :=
  match submitRun c transfer_id msg fee_recipient fee predecessor_account_id with
  | Except.error e => (SubmitResult.aborted e, c)
  | Except.ok (d, c1) => (SubmitResult.dispatched d, c1)

/-- Failure of the outbound promise, the `PromiseError` of near_sdk. -/
inductive PromiseError where
  | failed : PromiseError

/-- Observable effect of the settlement continuation: either the protocol
fee was paid to a recipient, or the record was restored for retry. -/
inductive CallbackEffect where
  | feePaid (recipient : AccountId) (amount : Nat) : CallbackEffect
  | restored : CallbackEffect

/-- Continuation `submit_transfer_to_dcr_connector_callback`, lines 132-146
of src/near/omni-bridge/src/dcr.rs: when the settlement call returned
`Ok(result)` with `result > 0`, pay the protocol fee `transfer_msg.fee.fee`
to the fee recipient (`send_fee_internal` is modelled from the spec: it
pays the fee and does not touch the transfer registry); otherwise reinsert
the closed-over record under its original owner. -/
def submit_transfer_to_dcr_connector_callback (c : Contract)
    (transfer_msg : TransferMessage) (transfer_owner : AccountId)
    (fee_recipient : AccountId) (call_result : Except PromiseError Nat) :
    CallbackEffect × Contract :=
  match call_result with
  | Except.ok result =>
    if result > 0 then
      (CallbackEffect.feePaid fee_recipient transfer_msg.fee.fee, c)
    else
      (CallbackEffect.restored, c.insert_raw_transfer transfer_msg transfer_owner)
  | Except.error _ =>
    (CallbackEffect.restored, c.insert_raw_transfer transfer_msg transfer_owner)

/-! Concrete sample values used to witness the theorems below. -/

/-- Sample protocol fee of 10 atoms. -/
def sampleFee : Fee := ⟨10, "default"⟩

/-- Sample pending transfer: 1000 atoms to the DCR address "Dsxyz", fee 10,
no embedded metadata. -/
def sampleRecord : TransferMessage :=
  { transfer_id := ⟨1⟩
    amount := 1000
    fee := sampleFee
    token := OmniAddress.eth "0xdcr"
    recipient := OmniAddress.dcr "Dsxyz"
    msg := none }

/-- Sample contract state holding `sampleRecord` and the DCR lookup tables. -/
def sampleContract : Contract :=
  { transfers := [(⟨1⟩, ⟨sampleRecord, "owner.near"⟩)]
    token_ids := [(OmniAddress.eth "0xdcr", "wdcr.near")]
    utxo_chain_tokens := [(ChainKind.Dcr, "wdcr.near")]
    utxo_chain_connectors := [(ChainKind.Dcr, "dcr-connector.near")] }

/-- Sample well-formed withdrawal instruction matching `sampleRecord`. -/
def sampleGoodJson : Json :=
  (DcrTokenReceiverMessage.Withdraw "Dsxyz" [] [] (some 500)).toJson

/-- Sample withdrawal instruction whose target address does not match
`sampleRecord`. -/
def sampleBadTargetJson : Json :=
  (DcrTokenReceiverMessage.Withdraw "WRONG" [] [] (some 500)).toJson

/-- The dispatch produced by submitting `sampleGoodJson` for `sampleRecord`
with no explicit fee recipient, called by "alice.near". -/
def sampleDispatch : Dispatch :=
  { token_id := "wdcr.near"
    attached_deposit := 1
    receiver_id := "dcr-connector.near"
    amount := 990
    memo := none
    payload := sampleGoodJson
    callback :=
      { transfer_msg := sampleRecord
        transfer_owner := "owner.near"
        fee_recipient := "alice.near" } }

/-- The contract state after `sampleRecord` is removed. -/
def sampleContractAfter : Contract :=
  { sampleContract with transfers := [] }

/-- C1: any validation failure in `submit_transfer_to_dcr_connector` aborts
the whole operation with no state change — the returned registry (and all
other contract state) is exactly the pre-call state, so the record is not
removed. -/
theorem submit_abort_preserves_state (c : Contract) (transfer_id : TransferId)
    (msg : Json) (fee_recipient : Option AccountId) (fee : Option Fee)
    (pred : AccountId) (e : String)
    (h : (submit_transfer_to_dcr_connector c transfer_id msg fee_recipient fee pred).1 =
      SubmitResult.aborted e) :
    (submit_transfer_to_dcr_connector c transfer_id msg fee_recipient fee pred).2 = c := by
  unfold submit_transfer_to_dcr_connector at h ⊢
  cases hrun : submitRun c transfer_id msg fee_recipient fee pred with
  | error e2 => simp [hrun]
  | ok p => rw [hrun] at h; simp at h

/-- Witness for C1: submitting an instruction whose target address mismatches
the sample record aborts with "Incorrect target address" and leaves the
sample state unchanged. -/
theorem submit_abort_preserves_state_witness :
    (submit_transfer_to_dcr_connector sampleContract ⟨1⟩ sampleBadTargetJson none none
      "alice.near").1 = SubmitResult.aborted "Incorrect target address" ∧
    (submit_transfer_to_dcr_connector sampleContract ⟨1⟩ sampleBadTargetJson none none
      "alice.near").2 = sampleContract :=
  ⟨rfl, submit_abort_preserves_state sampleContract ⟨1⟩ sampleBadTargetJson none none
    "alice.near" "Incorrect target address" rfl⟩

/-- C2: the settlement continuation either pays the protocol fee
`transfer_msg.fee.fee` to the resolved fee recipient leaving the registry
untouched (exactly when the settlement result is `Ok` with a positive
amount), or reinserts the closed-over record under its original owner and
pays no fee (when the result is an error or `Ok 0`) — never both, never
neither. -/
theorem callback_pays_or_restores (c : Contract) (tm : TransferMessage)
    (owner fr : AccountId) (res : Except PromiseError Nat) :
    ((∃ n, res = Except.ok n ∧ 0 < n) ∧
      submit_transfer_to_dcr_connector_callback c tm owner fr res =
        (CallbackEffect.feePaid fr tm.fee.fee, c)) ∨
    ((¬ ∃ n, res = Except.ok n ∧ 0 < n) ∧
      submit_transfer_to_dcr_connector_callback c tm owner fr res =
        (CallbackEffect.restored, c.insert_raw_transfer tm owner)) := by
  cases res with
  | error e =>
    right
    constructor
    · rintro ⟨n, hn, _⟩
      exact Except.noConfusion hn
    · rfl
  | ok n =>
    by_cases hn : 0 < n
    · left
      refine ⟨⟨n, rfl, hn⟩, ?_⟩
      simp [submit_transfer_to_dcr_connector_callback, hn]
    · right
      constructor
      · rintro ⟨m, hm, hmpos⟩
        cases hm
        exact hn hmpos
      · simp [submit_transfer_to_dcr_connector_callback, hn]

/-- Inversion of `checkedSub`: success means no underflow and the exact
difference. -/
theorem checkedSub_ok_iff (a b n : Nat) :
    checkedSub a b = Except.ok n ↔ b ≤ a ∧ n = a - b := by
  unfold checkedSub
  by_cases h : b ≤ a
  · simp [h, eq_comm]
  · simp [h]

/-- Inversion of an asserted-fee check: it passes exactly when the asserted
fee equals the stored fee. -/
theorem checkFee_some_ok_iff (f stored : Fee) :
    checkFee (some f) stored = Except.ok () ↔ stored = f := by
  unfold checkFee
  by_cases h : stored = f
  · simp [h]
  · simp [h]

/-- Inversion of a successful submission: `submitRun` returns a dispatch
exactly by passing every validation check in the source's order, removing
the record, and building the settlement call from the record's fields. -/
theorem submitRun_ok_inv (c : Contract) (transfer_id : TransferId) (msg : Json)
    (fee_recipient : Option AccountId) (fee : Option Fee) (pred : AccountId)
    (d : Dispatch) (c1 : Contract)
    (h : submitRun c transfer_id msg fee_recipient fee pred = Except.ok (d, c1)) :
    ∃ (transfer : TransferMessageStorage) (target : String) (input : List String)
      (output : List DcrTxOut) (mfr : Option Nat) (dcr_token_id token_id connector : AccountId),
      c.get_transfer_message_storage transfer_id = Except.ok transfer ∧
      DcrTokenReceiverMessage.fromJson msg =
        some (DcrTokenReceiverMessage.Withdraw target input output mfr) ∧
      transfer.message.fee.fee ≤ transfer.message.amount ∧
      transfer.message.recipient.get_utxo_address = some target ∧
      checkEmbeddedFeeRate transfer.message.msg mfr = Except.ok () ∧
      checkFee fee transfer.message.fee = Except.ok () ∧
      transfer.message.get_destination_chain = ChainKind.Dcr ∧
      c.get_utxo_chain_token transfer.message.get_destination_chain = Except.ok dcr_token_id ∧
      c.get_token_id transfer.message.token = Except.ok token_id ∧
      token_id = dcr_token_id ∧
      (c.remove_transfer_message transfer_id).get_utxo_chain_connector
        transfer.message.get_destination_chain = Except.ok connector ∧
      d = { token_id := dcr_token_id
            attached_deposit := 1
            receiver_id := connector
            amount := transfer.message.amount - transfer.message.fee.fee
            memo := none
            payload := msg
            callback :=
              { transfer_msg := transfer.message
                transfer_owner := transfer.owner
                fee_recipient := fee_recipient.getD pred } } ∧
      c1 = c.remove_transfer_message transfer_id := by
  unfold submitRun at h
  cases hst : c.get_transfer_message_storage transfer_id with
  | error e => simp only [hst] at h; exact Except.noConfusion h
  | ok transfer =>
  simp only [hst] at h
  cases hmsg : DcrTokenReceiverMessage.fromJson msg with
  | none => simp only [hmsg] at h; exact Except.noConfusion h
  | some message =>
  simp only [hmsg] at h
  cases hsub : checkedSub transfer.message.amount transfer.message.fee.fee with
  | error e => simp only [hsub] at h; exact Except.noConfusion h
  | ok amount =>
  simp only [hsub] at h
  obtain ⟨hle, hamt⟩ := (checkedSub_ok_iff _ _ _).mp hsub
  cases haddr : transfer.message.recipient.get_utxo_address with
  | none => simp only [haddr] at h; exact Except.noConfusion h
  | some dcr_address =>
  simp only [haddr] at h
  cases message with
  | DepositProtocolFee => simp only at h; exact Except.noConfusion h
  | Withdraw target input output mfr =>
  simp only at h
  by_cases htgt : dcr_address = target
  · rw [if_pos htgt] at h
    cases hemb : checkEmbeddedFeeRate transfer.message.msg mfr with
    | error e => simp only [hemb] at h; exact Except.noConfusion h
    | ok u =>
    cases u
    simp only [hemb] at h
    cases hfee : checkFee fee transfer.message.fee with
    | error e => simp only [hfee] at h; exact Except.noConfusion h
    | ok u2 =>
    cases u2
    simp only [hfee] at h
    by_cases hck : transfer.message.get_destination_chain = ChainKind.Dcr
    · rw [if_pos hck] at h
      cases htok : c.get_utxo_chain_token transfer.message.get_destination_chain with
      | error e => simp only [htok] at h; exact Except.noConfusion h
      | ok dcr_token_id =>
      simp only [htok] at h
      cases htid : c.get_token_id transfer.message.token with
      | error e => simp only [htid] at h; exact Except.noConfusion h
      | ok token_id =>
      simp only [htid] at h
      by_cases hteq : token_id = dcr_token_id
      · rw [if_pos hteq] at h
        cases hconn : (c.remove_transfer_message transfer_id).get_utxo_chain_connector
            transfer.message.get_destination_chain with
        | error e => simp only [hconn] at h; exact Except.noConfusion h
        | ok connector =>
        simp only [hconn, Except.ok.injEq, Prod.mk.injEq] at h
        obtain ⟨hd, hc1⟩ := h
        subst hamt
        refine ⟨transfer, target, input, output, mfr, dcr_token_id, token_id, connector,
          rfl, rfl, hle, ?_, hemb, hfee, hck, htok, htid, hteq, hconn, hd.symm, hc1.symm⟩
        rw [haddr, htgt]
      · rw [if_neg hteq] at h
        exact Except.noConfusion h
    · rw [if_neg hck] at h
      exact Except.noConfusion h
  · rw [if_neg htgt] at h
    exact Except.noConfusion h

/-- Inversion of the entry point: a dispatched result comes from a
successful `submitRun` with the same dispatch and post-state. -/
theorem submit_dispatched_inv (c : Contract) (transfer_id : TransferId) (msg : Json)
    (fee_recipient : Option AccountId) (fee : Option Fee) (pred : AccountId)
    (d : Dispatch) (c1 : Contract)
    (h : submit_transfer_to_dcr_connector c transfer_id msg fee_recipient fee pred =
      (SubmitResult.dispatched d, c1)) :
    submitRun c transfer_id msg fee_recipient fee pred = Except.ok (d, c1) := by
  unfold submit_transfer_to_dcr_connector at h
  cases hrun : submitRun c transfer_id msg fee_recipient fee pred with
  | error e => rw [hrun] at h; simp at h
  | ok p =>
    rw [hrun] at h
    obtain ⟨p1, p2⟩ := p
    simp only [Prod.mk.injEq, SubmitResult.dispatched.injEq] at h
    rw [h.1, h.2]

/-- C7: an explicitly asserted fee must equal the record's stored fee — the
check passes exactly when the two are equal — while an absent fee argument
is never checked; consequently any dispatched submission that asserted a
fee carried exactly the record's stored fee. -/
theorem asserted_fee_check :
    (∀ stored : Fee, checkFee none stored = Except.ok ()) ∧
    (∀ (f stored : Fee), checkFee (some f) stored = Except.ok () ↔ stored = f) ∧
    (∀ (c : Contract) (transfer_id : TransferId) (msg : Json)
       (fee_recipient : Option AccountId) (f : Fee) (pred : AccountId)
       (d : Dispatch) (c1 : Contract),
       submit_transfer_to_dcr_connector c transfer_id msg fee_recipient (some f) pred =
         (SubmitResult.dispatched d, c1) →
       d.callback.transfer_msg.fee = f) := by
  refine ⟨fun stored => rfl, fun f stored => checkFee_some_ok_iff f stored, ?_⟩
  intro c transfer_id msg fee_recipient f pred d c1 h
  obtain ⟨transfer, target, input, output, mfr, dcr_token_id, token_id, connector,
    _, _, _, _, _, hfee, _, _, _, _, _, hd, _⟩ :=
    submitRun_ok_inv c transfer_id msg fee_recipient (some f) pred d c1
      (submit_dispatched_inv c transfer_id msg fee_recipient (some f) pred d c1 h)
  have hfeq : transfer.message.fee = f := (checkFee_some_ok_iff f transfer.message.fee).mp hfee
  rw [hd]
  exact hfeq

/-- Witness for C7: submitting the sample instruction with the asserted fee
equal to the stored fee dispatches, and the dispatched record's fee is that
asserted fee; an absent fee argument is never checked. -/
theorem asserted_fee_check_witness :
    sampleDispatch.callback.transfer_msg.fee = sampleFee ∧
    checkFee none sampleFee = Except.ok () :=
  ⟨asserted_fee_check.2.2 sampleContract ⟨1⟩ sampleGoodJson none sampleFee "alice.near"
    sampleDispatch sampleContractAfter rfl,
   asserted_fee_check.1 sampleFee⟩

/-- C3: a dispatched submission closes over exactly the record it removed
(message and owner unmutated), the post-state is the pre-state minus that
record, and the continuation on a settlement failure reinserts exactly that
record under its original owner. -/
theorem removal_reinstatement_exact (c : Contract) (transfer_id : TransferId)
    (msg : Json) (fee_recipient : Option AccountId) (fee : Option Fee)
    (pred : AccountId) (st : TransferMessageStorage) (d : Dispatch) (c1 : Contract)
    (hfind : c.get_transfer_message_storage transfer_id = Except.ok st)
    (hdisp : submit_transfer_to_dcr_connector c transfer_id msg fee_recipient fee pred =
      (SubmitResult.dispatched d, c1)) :
    d.callback.transfer_msg = st.message ∧
    d.callback.transfer_owner = st.owner ∧
    c1 = c.remove_transfer_message transfer_id ∧
    (∀ (c2 : Contract) (e : PromiseError),
       submit_transfer_to_dcr_connector_callback c2 d.callback.transfer_msg
         d.callback.transfer_owner d.callback.fee_recipient (Except.error e) =
         (CallbackEffect.restored, c2.insert_raw_transfer st.message st.owner)) := by
  obtain ⟨transfer, target, input, output, mfr, dcr_token_id, token_id, connector,
    hst, _, _, _, _, _, _, _, _, _, _, hd, hc1⟩ :=
    submitRun_ok_inv c transfer_id msg fee_recipient fee pred d c1
      (submit_dispatched_inv c transfer_id msg fee_recipient fee pred d c1 hdisp)
  rw [hfind] at hst
  obtain rfl : st = transfer := by
    injection hst
  rw [hd]
  exact ⟨rfl, rfl, hc1, fun c2 e => rfl⟩

/-- Witness for C3: the sample submission closes over the sample record,
and the continuation on a failed settlement reinserts it unchanged under
"owner.near". -/
theorem removal_reinstatement_exact_witness :
    sampleDispatch.callback.transfer_msg = sampleRecord ∧
    submit_transfer_to_dcr_connector_callback sampleContractAfter
      sampleDispatch.callback.transfer_msg sampleDispatch.callback.transfer_owner
      sampleDispatch.callback.fee_recipient (Except.error PromiseError.failed) =
      (CallbackEffect.restored, sampleContractAfter.insert_raw_transfer sampleRecord
        "owner.near") :=
  have h := removal_reinstatement_exact sampleContract ⟨1⟩ sampleGoodJson none none
    "alice.near" ⟨sampleRecord, "owner.near"⟩ sampleDispatch sampleContractAfter rfl rfl
  ⟨h.1, h.2.2.2 sampleContractAfter PromiseError.failed⟩

/-- C4: the amount carried by the dispatched settlement call is the record's
amount minus the record's protocol fee. -/
theorem net_amount_dispatched (c : Contract) (transfer_id : TransferId) (msg : Json)
    (fee_recipient : Option AccountId) (fee : Option Fee) (pred : AccountId)
    (st : TransferMessageStorage) (d : Dispatch) (c1 : Contract)
    (hfind : c.get_transfer_message_storage transfer_id = Except.ok st)
    (hdisp : submit_transfer_to_dcr_connector c transfer_id msg fee_recipient fee pred =
      (SubmitResult.dispatched d, c1)) :
    d.amount = st.message.amount - st.message.fee.fee := by
  obtain ⟨transfer, target, input, output, mfr, dcr_token_id, token_id, connector,
    hst, _, _, _, _, _, _, _, _, _, _, hd, _⟩ :=
    submitRun_ok_inv c transfer_id msg fee_recipient fee pred d c1
      (submit_dispatched_inv c transfer_id msg fee_recipient fee pred d c1 hdisp)
  rw [hfind] at hst
  obtain rfl : st = transfer := by
    injection hst
  rw [hd]

/-- Witness for C4: for the sample record with amount 1000 and fee 10, the
dispatched net amount is 1000 - 10 = 990. -/
theorem net_amount_dispatched_witness :
    sampleDispatch.amount = sampleRecord.amount - sampleRecord.fee.fee ∧
    sampleDispatch.amount = 990 :=
  ⟨net_amount_dispatched sampleContract ⟨1⟩ sampleGoodJson none none "alice.near"
    ⟨sampleRecord, "owner.near"⟩ sampleDispatch sampleContractAfter rfl rfl, rfl⟩

/-- C9: when the record's protocol fee exceeds its amount, the net-amount
subtraction underflows, the whole call aborts before the record is removed,
and the registry is unchanged; the dispatch can only proceed when
`fee.fee ≤ amount`.  When the instruction parses, the abort is specifically
the subtraction-overflow panic. -/
theorem underflow_aborts (c : Contract) (transfer_id : TransferId) (msg : Json)
    (fee_recipient : Option AccountId) (fee : Option Fee) (pred : AccountId)
    (st : TransferMessageStorage)
    (hfind : assocFind c.transfers transfer_id = some st)
    (hlt : st.message.amount < st.message.fee.fee) :
    (∃ e, (submit_transfer_to_dcr_connector c transfer_id msg fee_recipient fee pred).1 =
      SubmitResult.aborted e) ∧
    (submit_transfer_to_dcr_connector c transfer_id msg fee_recipient fee pred).2 = c ∧
    (∀ m, DcrTokenReceiverMessage.fromJson msg = some m →
      (submit_transfer_to_dcr_connector c transfer_id msg fee_recipient fee pred).1 =
        SubmitResult.aborted "attempt to subtract with overflow") := by
  have hst : c.get_transfer_message_storage transfer_id = Except.ok st := by
    unfold Contract.get_transfer_message_storage
    rw [hfind]
  refine ⟨?_, ?_, ?_⟩
  · cases hrun : submitRun c transfer_id msg fee_recipient fee pred with
    | error e =>
      exact ⟨e, by unfold submit_transfer_to_dcr_connector; rw [hrun]⟩
    | ok p =>
      obtain ⟨d, c1⟩ := p
      obtain ⟨transfer, _, _, _, _, _, _, _, hst2, _, hle, _⟩ :=
        submitRun_ok_inv c transfer_id msg fee_recipient fee pred d c1 hrun
      rw [hst] at hst2
      obtain rfl : st = transfer := by injection hst2
      omega
  · cases hrun : submitRun c transfer_id msg fee_recipient fee pred with
    | error e =>
      unfold submit_transfer_to_dcr_connector
      rw [hrun]
    | ok p =>
      obtain ⟨d, c1⟩ := p
      obtain ⟨transfer, _, _, _, _, _, _, _, hst2, _, hle, _⟩ :=
        submitRun_ok_inv c transfer_id msg fee_recipient fee pred d c1 hrun
      rw [hst] at hst2
      obtain rfl : st = transfer := by injection hst2
      omega
  · intro m hm
    have hsub : checkedSub st.message.amount st.message.fee.fee =
        Except.error "attempt to subtract with overflow" := by
      unfold checkedSub
      rw [if_neg (by omega)]
    have hrun : submitRun c transfer_id msg fee_recipient fee pred =
        Except.error "attempt to subtract with overflow" := by
      unfold submitRun
      simp only [hst, hm, hsub]
    unfold submit_transfer_to_dcr_connector
    rw [hrun]

/-- Sample record identical to `sampleRecord` except its fee (10) exceeds
its amount (5). -/
def underflowRecord : TransferMessage :=
  { sampleRecord with amount := 5 }

/-- Sample contract whose only pending transfer has fee greater than
amount. -/
def underflowContract : Contract :=
  { sampleContract with transfers := [(⟨1⟩, ⟨underflowRecord, "owner.near"⟩)] }

/-- Witness for C9: submitting the well-formed sample instruction against a
record with amount 5 and fee 10 aborts with the subtraction-overflow panic
and leaves the state untouched. -/
theorem underflow_aborts_witness :
    (submit_transfer_to_dcr_connector underflowContract ⟨1⟩ sampleGoodJson none none
      "alice.near").1 = SubmitResult.aborted "attempt to subtract with overflow" ∧
    (submit_transfer_to_dcr_connector underflowContract ⟨1⟩ sampleGoodJson none none
      "alice.near").2 = underflowContract :=
  have h := underflow_aborts underflowContract ⟨1⟩ sampleGoodJson none none "alice.near"
    ⟨underflowRecord, "owner.near"⟩ rfl (by decide)
  ⟨h.2.2 (DcrTokenReceiverMessage.Withdraw "Dsxyz" [] [] (some 500)) rfl, h.2.1⟩

/-- The wire form of the embedded metadata `MaxFeeRate(12345)`. -/
def meta12345 : Json := (DcrUtxoChainMsg.MaxFeeRate 12345).toJson

/-- Sample record identical to `sampleRecord` except it carries the embedded
metadata `MaxFeeRate(12345)` in its `msg` field. -/
def metaRecord : TransferMessage :=
  { sampleRecord with msg := some meta12345 }

/-- Sample contract whose only pending transfer is `metaRecord`. -/
def metaContract : Contract :=
  { sampleContract with transfers := [(⟨1⟩, ⟨metaRecord, "owner.near"⟩)] }

/-- Sample instruction matching `metaRecord`, asserting max fee rate
12345. -/
def metaGoodJson : Json :=
  (DcrTokenReceiverMessage.Withdraw "Dsxyz" [] [] (some 12345)).toJson

/-- The dispatch produced by submitting `metaGoodJson` for `metaRecord`. -/
def metaDispatch : Dispatch :=
  { sampleDispatch with
    payload := metaGoodJson
    callback :=
      { transfer_msg := metaRecord
        transfer_owner := "owner.near"
        fee_recipient := "alice.near" } }

/-- C5: with a non-empty metadata string the fee-rate check passes exactly
when the string parses as `MaxFeeRate(v)` and the instruction asserts
exactly `v`; with an empty metadata string no check is performed.  In
particular, against embedded `MaxFeeRate(12345)` an asserted rate of 12345
passes while 9999 and an absent rate fail; and every dispatched submission
passed this check for its record's metadata and its instruction's asserted
rate. -/
theorem embedded_fee_rate_enforcement :
    (∀ (m : Json) (r : Option Nat),
       checkEmbeddedFeeRate (some m) r = Except.ok () ↔
       ∃ v, DcrUtxoChainMsg.fromJson m = some (DcrUtxoChainMsg.MaxFeeRate v) ∧
         r = some v) ∧
    (∀ r, checkEmbeddedFeeRate none r = Except.ok ()) ∧
    checkEmbeddedFeeRate (some meta12345) (some 12345) = Except.ok () ∧
    checkEmbeddedFeeRate (some meta12345) (some 9999) =
      Except.error "Invalid max fee rate" ∧
    checkEmbeddedFeeRate (some meta12345) none =
      Except.error "max_fee_rate is missing" ∧
    (∀ (c : Contract) (transfer_id : TransferId) (msg : Json)
       (fee_recipient : Option AccountId) (fee : Option Fee) (pred : AccountId)
       (d : Dispatch) (c1 : Contract) (a : String) (input : List String)
       (output : List DcrTxOut) (mfr : Option Nat),
       DcrTokenReceiverMessage.fromJson msg =
         some (DcrTokenReceiverMessage.Withdraw a input output mfr) →
       submit_transfer_to_dcr_connector c transfer_id msg fee_recipient fee pred =
         (SubmitResult.dispatched d, c1) →
       checkEmbeddedFeeRate d.callback.transfer_msg.msg mfr = Except.ok ()) := by
  refine ⟨?_, fun r => rfl, rfl, rfl, rfl, ?_⟩
  · intro m r
    unfold checkEmbeddedFeeRate
    cases hm : DcrUtxoChainMsg.fromJson m with
    | none => simp [hm]
    | some u =>
      cases u with
      | MaxFeeRate v =>
        cases r with
        | none => simp [hm]
        | some rv =>
          by_cases hrv : rv = v
          · simp [hm, hrv]
          · simp [hm, hrv]
  · intro c transfer_id msg fee_recipient fee pred d c1 a input output mfr hm hdisp
    obtain ⟨transfer, target, input2, output2, mfr2, dcr_token_id, token_id, connector,
      _, hmsg, _, _, hemb, _, _, _, _, _, _, hd, _⟩ :=
      submitRun_ok_inv c transfer_id msg fee_recipient fee pred d c1
        (submit_dispatched_inv c transfer_id msg fee_recipient fee pred d c1 hdisp)
    rw [hm] at hmsg
    obtain ⟨rfl, rfl, rfl, rfl⟩ :
        a = target ∧ input = input2 ∧ output = output2 ∧ mfr = mfr2 := by
      have := Option.some.inj hmsg
      cases this
      exact ⟨rfl, rfl, rfl, rfl⟩
    rw [hd]
    exact hemb

/-- Witness for C5: submitting the matching instruction (asserted rate
12345) against the record embedding `MaxFeeRate(12345)` dispatches, and the
dispatched record's metadata passed the fee-rate check against the asserted
rate. -/
theorem embedded_fee_rate_enforcement_witness :
    checkEmbeddedFeeRate metaDispatch.callback.transfer_msg.msg (some 12345) =
      Except.ok () :=
  embedded_fee_rate_enforcement.2.2.2.2.2 metaContract ⟨1⟩ metaGoodJson none none
    "alice.near" metaDispatch sampleContractAfter "Dsxyz" [] [] (some 12345) rfl rfl

/-- C10: validation never inspects the `Withdraw` instruction's `input` and
`output` fields — two instructions that differ only in those fields yield
the same post-state and the same abort-or-dispatch decision (same panic
message, or dispatches equal in every component except the forwarded
payload), and each dispatch forwards its own raw instruction verbatim. -/
theorem validation_ignores_inputs_outputs (c : Contract) (transfer_id : TransferId)
    (fee_recipient : Option AccountId) (fee : Option Fee) (pred : AccountId)
    (j1 j2 : Json) (a : String) (in1 in2 : List String) (out1 out2 : List DcrTxOut)
    (r : Option Nat)
    (h1 : DcrTokenReceiverMessage.fromJson j1 =
      some (DcrTokenReceiverMessage.Withdraw a in1 out1 r))
    (h2 : DcrTokenReceiverMessage.fromJson j2 =
      some (DcrTokenReceiverMessage.Withdraw a in2 out2 r)) :
    (submit_transfer_to_dcr_connector c transfer_id j1 fee_recipient fee pred).2 =
      (submit_transfer_to_dcr_connector c transfer_id j2 fee_recipient fee pred).2 ∧
    (match (submit_transfer_to_dcr_connector c transfer_id j1 fee_recipient fee pred).1,
       (submit_transfer_to_dcr_connector c transfer_id j2 fee_recipient fee pred).1 with
     | SubmitResult.aborted e1, SubmitResult.aborted e2 => e1 = e2
     | SubmitResult.dispatched d1, SubmitResult.dispatched d2 =>
       d1.payload = j1 ∧ d2.payload = j2 ∧ d1.token_id = d2.token_id ∧
       d1.attached_deposit = d2.attached_deposit ∧ d1.receiver_id = d2.receiver_id ∧
       d1.amount = d2.amount ∧ d1.memo = d2.memo ∧ d1.callback = d2.callback
     | _, _ => False) := by
  unfold submit_transfer_to_dcr_connector submitRun
  simp only [h1, h2]
  cases hst : c.get_transfer_message_storage transfer_id with
  | error e => exact ⟨rfl, rfl⟩
  | ok transfer =>
  simp only
  cases hsub : checkedSub transfer.message.amount transfer.message.fee.fee with
  | error e => exact ⟨rfl, rfl⟩
  | ok amount =>
  simp only
  cases haddr : transfer.message.recipient.get_utxo_address with
  | none => exact ⟨rfl, rfl⟩
  | some dcr_address =>
  simp only
  by_cases htgt : dcr_address = a
  · simp only [if_pos htgt]
    cases hemb : checkEmbeddedFeeRate transfer.message.msg r with
    | error e => exact ⟨rfl, rfl⟩
    | ok u =>
    simp only
    cases hfee : checkFee fee transfer.message.fee with
    | error e => exact ⟨rfl, rfl⟩
    | ok u2 =>
    simp only
    by_cases hck : transfer.message.get_destination_chain = ChainKind.Dcr
    · simp only [if_pos hck]
      cases htok : c.get_utxo_chain_token transfer.message.get_destination_chain with
      | error e => exact ⟨rfl, rfl⟩
      | ok dcr_token_id =>
      simp only
      cases htid : c.get_token_id transfer.message.token with
      | error e => exact ⟨rfl, rfl⟩
      | ok token_id =>
      simp only
      by_cases hteq : token_id = dcr_token_id
      · simp only [if_pos hteq]
        cases hconn : (c.remove_transfer_message transfer_id).get_utxo_chain_connector
            transfer.message.get_destination_chain with
        | error e => exact ⟨rfl, rfl⟩
        | ok connector =>
        exact ⟨rfl, rfl, rfl, rfl, rfl, rfl, rfl, rfl, rfl⟩
      · simp only [if_neg hteq]
        exact ⟨trivial, trivial⟩
    · simp only [if_neg hck]
      exact ⟨trivial, trivial⟩
  · simp only [if_neg htgt]
    exact ⟨trivial, trivial⟩

/-- Instruction with one spent UTXO and no outputs. -/
def inputsVariantJson1 : Json :=
  (DcrTokenReceiverMessage.Withdraw "Dsxyz" ["aaaa:0"] [] (some 500)).toJson

/-- Instruction with no spent UTXOs and one output; it differs from
`inputsVariantJson1` only in the `input` and `output` fields. -/
def inputsVariantJson2 : Json :=
  (DcrTokenReceiverMessage.Withdraw "Dsxyz" [] [⟨7, 0, "76a9"⟩] (some 500)).toJson

/-- Witness for C10: the two sample instructions differing only in inputs
and outputs produce the same post-state and componentwise-equal dispatches
(up to their own forwarded payloads) on the sample contract. -/
theorem validation_ignores_inputs_outputs_witness :
    (submit_transfer_to_dcr_connector sampleContract ⟨1⟩ inputsVariantJson1 none none
      "alice.near").2 =
      (submit_transfer_to_dcr_connector sampleContract ⟨1⟩ inputsVariantJson2 none none
        "alice.near").2 ∧
    (match (submit_transfer_to_dcr_connector sampleContract ⟨1⟩ inputsVariantJson1 none
        none "alice.near").1,
       (submit_transfer_to_dcr_connector sampleContract ⟨1⟩ inputsVariantJson2 none
        none "alice.near").1 with
     | SubmitResult.aborted e1, SubmitResult.aborted e2 => e1 = e2
     | SubmitResult.dispatched d1, SubmitResult.dispatched d2 =>
       d1.payload = inputsVariantJson1 ∧ d2.payload = inputsVariantJson2 ∧
       d1.token_id = d2.token_id ∧ d1.attached_deposit = d2.attached_deposit ∧
       d1.receiver_id = d2.receiver_id ∧ d1.amount = d2.amount ∧ d1.memo = d2.memo ∧
       d1.callback = d2.callback
     | _, _ => False) :=
  validation_ignores_inputs_outputs sampleContract ⟨1⟩ none none "alice.near"
    inputsVariantJson1 inputsVariantJson2 "Dsxyz" ["aaaa:0"] [] [] [⟨7, 0, "76a9"⟩]
    (some 500) rfl rfl

/-- Decoding a JSON array of encoded strings recovers the original list. -/
theorem parseStringList_map (l : List String) :
    parseStringList (l.map Json.str) = some l := by
  induction l with
  | nil => rfl
  | cons hd tl ih => simp [parseStringList, parseString, ih]

/-- Decoding the encoding of a well-formed `DcrTxOut` recovers it. -/
theorem dcrTxOut_roundtrip (o : DcrTxOut) (h : o.wfb = true) :
    DcrTxOut.fromJson o.toJson = some o := by
  obtain ⟨hv, hver⟩ : o.value < 2 ^ 64 ∧ o.version < 2 ^ 16 := by
    unfold DcrTxOut.wfb at h
    simpa using h
  have hv2 : o.value < 18446744073709551616 := by simpa using hv
  have hver2 : o.version < 65536 := by simpa using hver
  simp [DcrTxOut.toJson, DcrTxOut.fromJson, jfield, parseBoundedNum, parseString,
    hv2, hver2]

/-- Decoding a JSON array of encoded well-formed outputs recovers the
original list. -/
theorem parseTxOutList_map (l : List DcrTxOut) (h : l.all DcrTxOut.wfb = true) :
    parseTxOutList (l.map DcrTxOut.toJson) = some l := by
  induction l with
  | nil => rfl
  | cons hd tl ih =>
    rw [List.all_cons, Bool.and_eq_true] at h
    simp [parseTxOutList, dcrTxOut_roundtrip hd h.1, ih h.2]

/-- C8: serializing a well-formed withdrawal instruction (either variant,
any combination of target address, inputs, outputs and optional max fee
rate) to its JSON wire form and deserializing recovers the original value,
and likewise for the embedded fee-rate metadata. -/
theorem serde_json_roundtrip :
    (∀ m : DcrTokenReceiverMessage, m.wfb = true →
       DcrTokenReceiverMessage.fromJson m.toJson = some m) ∧
    (∀ u : DcrUtxoChainMsg, u.wfb = true →
       DcrUtxoChainMsg.fromJson u.toJson = some u) := by
  constructor
  · intro m h
    cases m with
    | DepositProtocolFee => rfl
    | Withdraw a input output mfr =>
      unfold DcrTokenReceiverMessage.wfb at h
      rw [Bool.and_eq_true] at h
      obtain ⟨hout, hmfr⟩ := h
      cases mfr with
      | none =>
        simp [DcrTokenReceiverMessage.toJson, DcrTokenReceiverMessage.fromJson,
          parseWithdrawPayload, jfield, parseString, parseOptU128Field,
          parseStringList_map, parseTxOutList_map output hout]
      | some r =>
        have hr : r < 340282366920938463463374607431768211456 := by simpa using hmfr
        simp [DcrTokenReceiverMessage.toJson, DcrTokenReceiverMessage.fromJson,
          parseWithdrawPayload, jfield, parseString, parseOptU128Field, parseU128,
          parseStringList_map, parseTxOutList_map output hout, hr]
  · intro u h
    cases u with
    | MaxFeeRate r =>
      have hr : r < 18446744073709551616 := by
        unfold DcrUtxoChainMsg.wfb at h
        simpa using h
      simp [DcrUtxoChainMsg.toJson, DcrUtxoChainMsg.fromJson, parseU64, hr]

/-- Witness for C8: a concrete instruction with inputs, outputs and an
asserted fee rate, and the concrete metadata `MaxFeeRate(12345)`, both
round-trip through their JSON wire forms. -/
theorem serde_json_roundtrip_witness :
    DcrTokenReceiverMessage.fromJson
      (DcrTokenReceiverMessage.Withdraw "Dsxyz" ["aaaa:0", "bbbb:1"]
        [⟨12345, 0, "76a914"⟩] (some 500)).toJson =
      some (DcrTokenReceiverMessage.Withdraw "Dsxyz" ["aaaa:0", "bbbb:1"]
        [⟨12345, 0, "76a914"⟩] (some 500)) ∧
    DcrUtxoChainMsg.fromJson (DcrUtxoChainMsg.MaxFeeRate 12345).toJson =
      some (DcrUtxoChainMsg.MaxFeeRate 12345) :=
  ⟨serde_json_roundtrip.1
      (DcrTokenReceiverMessage.Withdraw "Dsxyz" ["aaaa:0", "bbbb:1"]
        [⟨12345, 0, "76a914"⟩] (some 500)) (by decide),
   serde_json_roundtrip.2 (DcrUtxoChainMsg.MaxFeeRate 12345) (by decide)⟩

end OmniBridgeDcr
